import Mathlib

/-!
Verification development for the IdeaForge backend
(`live_backend.py` and `live_backend_real_build.py`).

Strings are modelled as `List Char` (`Str`), and the Python string
operations used by the sources (`rstrip`, `strip`, `startswith`,
`endswith`, `in`, `split`, `find`, `rfind`, slicing, `join`) are
defined below with Python's semantics.  Each backend function under
study is then translated line by line from the Python source.
-/

set_option maxRecDepth 16384

namespace IdeaForge

/-- Strings are lists of characters; Python text is modelled this way so
that every operation is a computable structural recursion. -/
abbrev Str := List Char

/-- Coerce a Lean string literal to the `Str` model. -/
def S (s : String) : Str := s.data

/-- Python `str.strip` / `rstrip` whitespace set (default argument). -/
def pyIsSpace (c : Char) : Bool :=
  c == ' ' || c == '\t' || c == '\n' || c == '\r' || c == '\x0b' || c == '\x0c'

/-- Python `s.rstrip()`. -/
def pyRstrip (s : Str) : Str := (s.reverse.dropWhile pyIsSpace).reverse

/-- Python `s.lstrip()`. -/
def pyLstrip (s : Str) : Str := s.dropWhile pyIsSpace

/-- Python `s.strip()`. -/
def pyStrip (s : Str) : Str := pyRstrip (pyLstrip s)

/-- Python `s.startswith(p)`. -/
def pyStarts (p s : Str) : Bool := p.isPrefixOf s

/-- Python `s.endswith(p)`. -/
def pyEnds (p s : Str) : Bool := p.isSuffixOf s

/-- Python substring test `needle in hay`. -/
def pyIn (needle : Str) : Str → Bool
  | [] => needle.isEmpty
  | c :: t => needle.isPrefixOf (c :: t) || pyIn needle t

/-- Python `s.split(sep)` for a one-character separator: keeps empty
fields, `"".split(c) == [""]`. -/
def pySplit (sep : Char) : Str → List Str
  | [] => [[]]
  | c :: cs =>
    match pySplit sep cs with
    | [] => if c = sep then [[], []] else [[c]]
    | l :: ls => if c = sep then [] :: l :: ls else (c :: l) :: ls

/-- Python `s.split(sep, 1)` for a one-character separator: the part
before the first separator, and the remainder if the separator occurs. -/
def pySplitFirst (sep : Char) : Str → Str × Option Str
  | [] => ([], none)
  | c :: cs =>
    if c = sep then ([], some cs) else
      let r := pySplitFirst sep cs
      (c :: r.1, r.2)

/-- Fuelled worker for `pySplitSub`; the fuel (initially the input
length) only bounds recursion depth and never runs out. -/
def pySplitSubF (sep : Str) : Nat → Str → List Str
  | _, [] => [[]]
  | 0, s => [s]
  | fuel + 1, c :: cs =>
    if sep ≠ [] ∧ sep.isPrefixOf (c :: cs) then
      [] :: pySplitSubF sep fuel (cs.drop (sep.length - 1))
    else
      match pySplitSubF sep fuel cs with
      | [] => [[c]]
      | l :: ls => (c :: l) :: ls

/-- Python `s.split(sep)` for a multi-character separator (non-empty in
all uses): non-overlapping matches scanned left to right, empty fields
kept. -/
def pySplitSub (sep s : Str) : List Str := pySplitSubF sep s.length s

/-- Python `s.find(sub)`: index of the first occurrence, `none` for -1. -/
def pyFindSub (needle : Str) : Str → Option Nat
  | [] => if needle = [] then some 0 else none
  | c :: cs =>
    if needle.isPrefixOf (c :: cs) then some 0
    else (pyFindSub needle cs).map (· + 1)

/-- Python `s.rfind(sub)`: index of the last occurrence, `none` for -1. -/
def pyRfindSub (needle : Str) : Str → Option Nat
  | [] => if needle = [] then some 0 else none
  | c :: cs =>
    match pyRfindSub needle cs with
    | some i => some (i + 1)
    | none => if needle.isPrefixOf (c :: cs) then some 0 else none

/-- Python `sep.join(parts)` for a one-character separator. -/
def joinC (sep : Char) : List Str → Str
  | [] => []
  | [x] => x
  | x :: y :: xs => x ++ sep :: joinC sep (y :: xs)

/-- Decimal rendering of a natural number, as used by Python
f-string interpolation of an `int`. -/
def natStr (n : Nat) : Str := Nat.toDigits 10 n

/-- Python dict assignment `d[k] = v`: updates in place if the key is
present, otherwise appends (insertion order preserved). -/
def dictInsert (d : List (Str × Str)) (k v : Str) : List (Str × Str) :=
  match d with
  | [] => [(k, v)]
  | (k', v') :: rest =>
    if k' = k then (k, v) :: rest else (k', v') :: dictInsert rest k v

/-- Python dict lookup `d.get(k)`. -/
def dictGet (d : List (Str × Str)) (k : Str) : Option Str :=
  match d with
  | [] => none
  | (k', v') :: rest => if k' = k then some v' else dictGet rest k

/-- Python dict membership `k in d`. -/
def dictHas (d : List (Str × Str)) (k : Str) : Bool := (dictGet d k).isSome

/-!
Extractor of `live_backend_real_build.py` (`parse_generated_code`,
lines 146-255): a line scanner that toggles an in-fence flag on lines
whose stripped form starts with three backticks, recovers a filename
only from a `language:filename` suffix of the opening fence line,
accumulates fenced lines, and on the closing fence maps the recovered
filename onto the canonical keys.  The scan is followed by the
missing-file checks and the per-file content validation of the same
function.
-/

/-- Mutable locals of the scanning loop of
`live_backend_real_build.parse_generated_code`. -/
structure ScanSt where
  files : List (Str × Str)
  ignored : List Str
  current : List Str
  inBlock : Bool
  filename : Option Str
  language : Option Str
deriving DecidableEq

/-- Initial scanner state (`files = {}` and so on). -/
def initScan : ScanSt := ⟨[], [], [], false, none, none⟩

/-- Canonical-key mapping performed when a fence closes
(`live_backend_real_build.py` lines 176-185): only `main.dart`,
`pubspec.yaml`, filenames containing them, and `assets/` paths are kept. -/
def emitFile (files : List (Str × Str)) (f content : Str) : List (Str × Str) :=
  if f = S "main.dart" ∨ f = S "pubspec.yaml" then dictInsert files f content
  else if pyIn (S "main.dart") f then dictInsert files (S "main.dart") content
  else if pyIn (S "pubspec.yaml") f then dictInsert files (S "pubspec.yaml") content
  else if pyStarts (S "assets/") f then dictInsert files f content
  else files

/-- One iteration of the scanning loop of
`live_backend_real_build.parse_generated_code` (lines 157-196). -/
def scanLine (st : ScanSt) (raw : Str) : ScanSt :=
  let line := pyRstrip raw
  let stripped := pyStrip line
  if pyStarts (S "```") stripped then
    if st.inBlock = false then
      match pySplit ':' (stripped.drop 3) with
      | [] => { st with inBlock := true }
      | [p0] => { st with inBlock := true, language := some (pyStrip p0) }
      | p0 :: p1 :: _ =>
        { st with inBlock := true, language := some (pyStrip p0),
                  filename := some (pyStrip p1) }
    else
      let files' :=
        match st.filename with
        | some f =>
          if f ≠ [] ∧ st.current ≠ [] then emitFile st.files f (joinC '\n' st.current)
          else st.files
        | none => st.files
      { files := files', ignored := st.ignored, current := [],
        inBlock := false, filename := none, language := none }
  else if st.inBlock then { st with current := st.current ++ [line] }
  else if pyStrip line ≠ [] ∧ pyStarts (S "FILENAME:") (pyStrip line) = false then
    { st with ignored := st.ignored ++ [pyStrip line] }
  else st

/-- Outcome of the `yaml.safe_load` / `flutter.assets` extraction that
`parse_generated_code` performs on `pubspec.yaml` through the external
`yaml` library: a `YAMLError` from the first `safe_load`, an exception
while navigating to `flutter.assets`, or a successful parse carrying the
declared `flutter.assets` list when both keys are present. -/
inductive YamlRes where
  | syntaxErr (msg : Str)
  | assetsErr (msg : Str)
  | parsed (assets : Option (List Str))
deriving DecidableEq

/-- Asset loop of `parse_generated_code` (lines 230-233): the first
declared `assets/` path absent from the file set yields the error. -/
def firstAssetErr (all : List (Str × Str)) : List Str → Option Str
  | [] => none
  | a :: rest =>
    if pyStarts (S "assets/") a = true ∧ dictHas all a = false then
      some (S "Missing required asset file: " ++ a)
    else firstAssetErr all rest

/-- Pubspec validation of `parse_generated_code` (lines 218-235), with
the `yaml` library's behaviour supplied by the oracle. -/
def checkPubspec (oracle : Str → YamlRes) (all : List (Str × Str)) (content : Str) :
    Option Str :=
  match oracle content with
  | .syntaxErr e => some (S "Invalid YAML syntax in pubspec.yaml: " ++ e)
  | .assetsErr e => some (S "Error parsing pubspec.yaml assets: " ++ e)
  | .parsed assets => firstAssetErr all (assets.getD [])

/-- Prefixes that exempt a line from the field heuristic of
`parse_generated_code` (line 249). -/
def parseSkips : List Str :=
  [S "import ", S "//", S "/*", S "*", S "*/", S "class ", S "void ",
   S "return ", S "\x7d"]

/-- Type markers of the field heuristic of `parse_generated_code`
(line 251). -/
def parseTypes : List Str :=
  [S "double ", S "int ", S "String ", S "bool ", S "List<", S "Map<"]

/-- Uninitialized-field heuristic of `parse_generated_code`
(lines 245-253), scanning `main.dart` line by line. -/
def mainFieldLoop (i : Nat) : List Str → Option Str
  | [] => none
  | raw :: rest =>
    let line := pyStrip raw
    if line ≠ [] ∧ parseSkips.all (fun p => pyStarts p line = false) then
      if parseTypes.any (fun t => pyIn t line) then
        if pyIn (S "?") line = false ∧ pyIn (S "=") line = false ∧
            pyIn (S "required") line = false then
          some (S "Invalid main.dart: Uninitialized non-nullable field at line "
                ++ natStr (i + 1) ++ S ": " ++ line)
        else mainFieldLoop (i + 1) rest
      else mainFieldLoop (i + 1) rest
    else mainFieldLoop (i + 1) rest

/-- `main.dart` validation of `parse_generated_code` (lines 238-253). -/
def checkMainDart (content : Str) : Option Str :=
  if pyStarts (S "import ") (pyStrip content) = false then
    some (S "Invalid main.dart: Missing import statements")
  else if pyIn (S "void main()") content = false then
    some (S "Invalid main.dart: Missing main() function")
  else mainFieldLoop 0 (pySplit '\n' content)

/-- Per-file content validation of `parse_generated_code`
(lines 211-253). -/
def checkFile (oracle : Str → YamlRes) (all : List (Str × Str)) (fn content : Str) :
    Option Str :=
  if pyIn (S "```") content then
    some (S "Invalid content in " ++ fn ++ S ": Contains markdown code block markers")
  else if pyIn (S "FILENAME:") content then
    some (S "Invalid content in " ++ fn ++ S ": Contains filename markers")
  else
    match (if fn = S "pubspec.yaml" then checkPubspec oracle all content else none) with
    | some e => some e
    | none => if fn = S "main.dart" then checkMainDart content else none

/-- First error raised by the validation loop over `files.items()`. -/
def filesFirstErr (oracle : Str → YamlRes) (all : List (Str × Str)) :
    List (Str × Str) → Option Str
  | [] => none
  | (fn, content) :: rest =>
    match checkFile oracle all fn content with
    | some e => some e
    | none => filesFirstErr oracle all rest

/-- `parse_generated_code` of `live_backend_real_build.py`
(lines 146-255): scan, then the missing-file checks, then content
validation.  An `{"error": msg}` return is modelled as `Except.error`. -/
def parse_generated_code_rb (oracle : Str → YamlRes) (generated_text : Str) :
    Except Str (List (Str × Str)) :=
  let st := (pySplit '\n' generated_text).foldl scanLine initScan
  if dictHas st.files (S "main.dart") = false then
    .error (S "Missing required file: main.dart")
  else if dictHas st.files (S "pubspec.yaml") = false then
    .error (S "Missing required file: pubspec.yaml")
  else
    match filesFirstErr oracle st.files st.files with
    | some e => .error e
    | none => .ok st.files

/-!
Extractor of `live_backend.py` (`parse_generated_code`, lines 106-194):
splits the raw text on the marker `FILENAME:`, takes the first line of
each part as the filename, strips a fenced wrapper from the rest, and
finally substitutes a whole-text fallback for `main.dart` and a
built-in default for a missing `pubspec.yaml`.  The `except` fallback of
the source is unreachable here because every operation in the body is a
total string operation.
-/

/-- Default `pubspec.yaml` that `live_backend.parse_generated_code`
substitutes when the model output contains none (lines 146-166). -/
def defaultPubspec : Str :=
  S "name: idea_forge_generated_app\ndescription: A new Flutter project generated by Idea Forge.\npublish_to: \x27none\x27\n\nversion: 1.0.0+1\n\nenvironment:\n  sdk: \x27>=2.19.0 <4.0.0\x27\n\ndependencies:\n  flutter:\n    sdk: flutter\n  cupertino_icons: ^1.0.2\n\ndev_dependencies:\n  flutter_test:\n    sdk: flutter\n  flutter_lints: ^2.0.0\n\nflutter:\n  uses-material-design: true"

/-- Processing of one `FILENAME:`-delimited part
(`live_backend.py` lines 112-138). -/
def lbPart (files : List (Str × Str)) (part : Str) : List (Str × Str) :=
  if pyStrip part = [] then files
  else
    let lns := pySplitFirst '\n' (pyStrip part)
    let filename := pyStrip lns.1
    let code_content :=
      match lns.2 with
      | none => []
      | some rest =>
        let code_block := pyStrip rest
        if pyStarts (S "```") code_block then
          let startIdx := match pyFindSub (S "\n") code_block with
            | none => 0
            | some i => i + 1
          match pyRfindSub (S "```") code_block with
          | none => pyStrip (code_block.drop startIdx)
          | some e => pyStrip ((code_block.take e).drop startIdx)
        else pyStrip code_block
    if filename = S "main.dart" ∨ filename = S "pubspec.yaml" then
      dictInsert files filename code_content
    else if pyIn (S "main.dart") filename then
      dictInsert files (S "main.dart") code_content
    else if pyIn (S "pubspec.yaml") filename then
      dictInsert files (S "pubspec.yaml") code_content
    else files

/-- `parse_generated_code` of `live_backend.py` (lines 106-194). -/
def parse_generated_code_lb (generated_text : Str) : List (Str × Str) :=
  let files := (pySplitSub (S "FILENAME:") generated_text).foldl lbPart []
  let files :=
    if dictHas files (S "main.dart") = false then
      if pyIn (S "name:") generated_text = false ∧
          (pyIn (S "void main()") generated_text = true ∨
           pyIn (S "MaterialApp") generated_text = true) then
        dictInsert files (S "main.dart") generated_text
      else files
    else files
  if dictHas files (S "pubspec.yaml") = false then
    dictInsert files (S "pubspec.yaml") defaultPubspec
  else files

/-!
Validator `validate_and_fix_dart_null_safety` of
`live_backend_real_build.py` (lines 413-452).  Each line is rstripped;
lines whose stripped form starts with a comment / declaration prefix are
passed through; on the others every matching non-nullable type marker
records an error.  The inner `continue` of the source only skips to the
next type marker, so the line is appended to `fixed_lines` in every
case; on success the function returns the joined `fixed_lines`.
-/

/-- Skip prefixes of `validate_and_fix_dart_null_safety` (line 433). -/
def vafSkips : List Str :=
  [S "//", S "/*", S "*", S "*/", S "import ", S "class ", S "void ",
   S "return ", S "\x7d"]

/-- Non-nullable type names of `validate_and_fix_dart_null_safety`
(lines 423-426); the membership test appends a space (`f"{type_name} "`). -/
def vafTypes : List Str :=
  [S "double", S "int", S "String", S "bool", S "Color", S "List<",
   S "Map<", S "Widget", S "BuildContext", S "State<", S "Key",
   S "Duration"]

/-- Control keywords excluding a line from the field check (line 441). -/
def vafKeywords : List Str :=
  [S "void", S "return", S "if", S "for", S "while"]

/-- Errors recorded for one (already rstripped) line at index `i`. -/
def vafLineErrs (i : Nat) (line : Str) : List Str :=
  vafTypes.filterMap (fun t =>
    if pyIn (t ++ [' ']) line = true ∧ pyIn (S "?") line = false ∧
        pyIn (S "=") line = false ∧ pyIn (S "required") line = false then
      if pyIn (S ";") line = true ∧
          vafKeywords.all (fun k => pyIn k line = false) then
        some (S "Line " ++ natStr (i + 1)
              ++ S ": Non-nullable field without initialization: " ++ pyStrip line)
      else none
    else none)

/-- Loop of `validate_and_fix_dart_null_safety` (lines 428-446),
returning `(fixed_lines, errors)`. -/
def vafLoop (i : Nat) : List Str → List Str × List Str
  | [] => ([], [])
  | raw :: rest =>
    let line := pyRstrip raw
    let r := vafLoop (i + 1) rest
    if vafSkips.any (fun p => pyStarts p (pyStrip line)) then
      (line :: r.1, r.2)
    else
      (line :: r.1, vafLineErrs i line ++ r.2)

/-- `validate_and_fix_dart_null_safety` (lines 413-452): returns
`(success, fixed_content, error_message)`. -/
def validate_and_fix_dart_null_safety (content : Str) : Bool × Str × Str :=
  let r := vafLoop 0 (pySplit '\n' content)
  if r.2 ≠ [] then
    (false, content,
     S "Code contains non-nullable fields without initialization:\n"
       ++ joinC '\n' r.2)
  else (true, joinC '\n' r.1, [])

/-!
Polling driver of `live_backend.generate_app_real_build`
(lines 485-517): `build_status` starts as `"WORKING"`, each of at most
`max_polls` iterations sleeps and then samples
`get_cloud_build_status_and_apk_url`, and the loop breaks at the first
sample whose status is outside `["PENDING", "QUEUED", "WORKING"]`.
The sleep is irrelevant to the values computed and is not modelled.
-/

/-- One sample of `get_cloud_build_status_and_apk_url`: the status
string, the build log URL and the artifact URL. -/
structure Sample where
  status : Str
  log : Option Str
  apk : Option Str
deriving DecidableEq

/-- In-progress test of the polling loop (line 496). -/
def inProgress (s : Str) : Bool :=
  s == S "PENDING" || s == S "QUEUED" || s == S "WORKING"

/-- The polling loop: `cur` holds the current
`(build_status, log_url, apk_download_url)`, `i` the next sample index,
and the third argument the remaining iterations.  Returns the final
sample together with the number of samples taken. -/
def pollAux (sample : Nat → Sample) : Sample → Nat → Nat → Sample × Nat
  | cur, i, 0 => (cur, i)
  | _, i, fuel + 1 =>
    let s := sample i
    if inProgress s.status then pollAux sample s (i + 1) fuel
    else (s, i + 1)

/-- The driver's polling phase with a budget of `maxPolls` samples,
starting from the initial `("WORKING", None, None)` of lines 488-490. -/
def drivePoll (sample : Nat → Sample) (maxPolls : Nat) : Sample × Nat :=
  pollAux sample ⟨S "WORKING", none, none⟩ 0 maxPolls

/-- The poll budget hard-coded by the driver (line 486). -/
def MAX_POLLS : Nat := 20

/-- Python truthiness of `apk_download_url` in line 500: a URL counts
only when present and non-empty. -/
def apkTruthy : Option Str → Bool
  | none => false
  | some u => u ≠ []

/-- HTTP outcome of the driver after polling (lines 500-517). -/
structure PollOutcome where
  code : Nat
  message : Str
  log_url : Option Str
deriving DecidableEq

/-- Response construction of `generate_app_real_build` after the loop
(lines 500-517). -/
def finishResponse (res : Sample) : PollOutcome :=
  if res.status = S "SUCCESS" ∧ apkTruthy res.apk = true then
    { code := 200, message := S "App generated, built, and ready for download!",
      log_url := res.log }
  else
    { code := 500, message := S "Build failed or timed out. Status: " ++ res.status,
      log_url := res.log }

/-!
Artifact resolver fallback.  `live_backend_real_build.py` resolves a
successful build with no artifact metadata by
`list_latest_apks` (lines 351-370): list the bucket under the prefix
`ideaforge-builds/`, keep `.apk` names, pair each with its signed URL
and sort by blob name descending; `get_cloud_build_status_and_apk_url`
then takes the head (lines 398-403).  `live_backend.py` (lines 328-344)
instead folds over the listing keeping the blob with the greatest
`updated` time.  Bucket listing and URL signing are external services:
the bucket is a list of blobs and `su` the signing function.
-/

/-- A blob of the artifact bucket: object name and update time. -/
structure Blob where
  name : Str
  updated : Nat
deriving DecidableEq

/-- The fixed conventional prefix `ideaforge-builds/`. -/
def apkDir : Str := S "ideaforge-builds/"

/-- Lexicographic character-code order, Python `<` on `str`. -/
def strLt : Str → Str → Bool
  | [], [] => false
  | [], _ :: _ => true
  | _ :: _, [] => false
  | a :: as_, b :: bs =>
    if a.toNat < b.toNat then true
    else if b.toNat < a.toNat then false
    else strLt as_ bs

/-- Python `<=` on `str`. -/
def strLe (x y : Str) : Bool := !strLt y x

/-- Ordering used by `sorted(apk_blobs, key=lambda x: x[0], reverse=True)`:
`a` may precede `b` when `b`'s name is `<=` `a`'s.  A stable sort under
this relation is exactly Python's stable descending sort. -/
def nameGe (a b : Str × Str) : Prop := strLe b.1 a.1 = true

instance : DecidableRel nameGe := fun a b => by unfold nameGe; infer_instance

/-- `list_latest_apks` (lines 351-370). -/
def list_latest_apks (su : Str → Str) (bucket : List Blob) : List (Str × Str) :=
  let blobs := bucket.filter (fun b => pyStarts apkDir b.name)
  let apk_blobs := (blobs.filter (fun b => pyEnds (S ".apk") b.name)).map
    (fun b => (b.name, su b.name))
  List.insertionSort nameGe apk_blobs

/-- Fallback of `live_backend_real_build.get_cloud_build_status_and_apk_url`
(lines 398-403): the head of `list_latest_apks`, if any. -/
def rbApkFallback (su : Str → Str) (bucket : List Blob) : Option Str :=
  match list_latest_apks su bucket with
  | [] => none
  | x :: _ => some x.2

/-- One step of the latest-blob fold of
`live_backend.get_cloud_build_status_and_apk_url` (lines 335-339). -/
def lbApkStep (acc : Option Blob) (b : Blob) : Option Blob :=
  if pyEnds (S ".apk") b.name then
    match acc with
    | none => some b
    | some l => if l.updated < b.updated then some b else some l
  else acc

/-- Fallback of `live_backend.get_cloud_build_status_and_apk_url`
(lines 331-344): the most recently updated `.apk` under the prefix. -/
def lbApkFallback (su : Str → Str) (bucket : List Blob) : Option Str :=
  let blobs := bucket.filter (fun b => pyStarts apkDir b.name)
  (blobs.foldl lbApkStep none).map (fun b => su b.name)

/-!
Publisher `update_github_repository`.  The git side is modelled by a
repository with a default branch tree `main` (a path-to-content map;
the `.git` metadata directory is not part of a tree), an optional
`genApp` tree for the branch `generated-app`, and a count of commits
created so far.  `git clone --depth=1 URL` checks out the remote's
default branch, assumed distinct from `generated-app` (were it equal,
`git checkout -b generated-app` would fail and the publisher would abort
on the `CalledProcessError`).  `git status --porcelain` after `git add .`
is empty exactly when the working tree equals the cloned tree, which
`treeEq` decides by comparing lookups in both directions.  Credentials
are assumed configured and transport errors are out of scope.
-/

/-- Tracked state of the target repository. -/
structure Repo where
  main : List (Str × Str)
  genApp : Option (List (Str × Str))
  commits : Nat
deriving DecidableEq

/-- Result of one publish call: `(success, message, committed)`. -/
structure PubRes where
  ok : Bool
  message : Str
  committed : Bool
deriving DecidableEq

/-- Empty-staged-diff test: the two trees hold the same files. -/
def treeEq (t u : List (Str × Str)) : Bool :=
  t.all (fun e => dictGet u e.1 == some e.2) &&
  u.all (fun e => dictGet t e.1 == some e.2)

/-- File-writing loop of `live_backend_real_build.update_github_repository`
(lines 272-291): `main.dart` under `lib/`, `pubspec.yaml` at the root,
`assets/` paths verbatim, anything else skipped. -/
def rbWrite (files : List (Str × Str)) (tree : List (Str × Str)) :
    List (Str × Str) :=
  files.foldl (fun w fc =>
    if fc.1 = S "main.dart" then dictInsert w (S "lib/main.dart") fc.2
    else if fc.1 = S "pubspec.yaml" then dictInsert w (S "pubspec.yaml") fc.2
    else if pyStarts (S "assets/") fc.1 then dictInsert w fc.1 fc.2
    else w) tree

/-- `update_github_repository` of `live_backend_real_build.py`
(lines 258-317): clone the default branch, create `generated-app` from
it, write the generated files, and either short-circuit on an empty
staged diff or commit and force-push `generated-app`. -/
def update_github_repository_rb (files : List (Str × Str)) (repo : Repo) :
    PubRes × Repo :=
  let working := rbWrite files repo.main
  if treeEq working repo.main then
    (⟨true, S "No changes to commit.", false⟩, repo)
  else
    (⟨true, S "Successfully updated files in GitHub repository.", true⟩,
     { repo with genApp := some working, commits := repo.commits + 1 })

/-- Top-level path component, used by the clearing loop's allow-list. -/
def topComp (p : Str) : Str := p.takeWhile (fun c => !(c == '/'))

/-- Clearing loop of `live_backend.update_github_repository`
(lines 209-216): every top-level item except `.git` and
`cloudbuild.yaml` is deleted from the working copy. -/
def lbClear (tree : List (Str × Str)) : List (Str × Str) :=
  tree.filter (fun e => topComp e.1 = S ".git" ∨ topComp e.1 = S "cloudbuild.yaml")

/-- File-writing loop of `live_backend.update_github_repository`
(lines 224-231): `main.dart` under `lib/`, every other filename at the
repository root. -/
def lbWrite (files : List (Str × Str)) (tree : List (Str × Str)) :
    List (Str × Str) :=
  files.foldl (fun w fc =>
    if fc.1 = S "main.dart" then dictInsert w (S "lib/main.dart") fc.2
    else dictInsert w fc.1 fc.2) tree

/-- `update_github_repository` of `live_backend.py` (lines 197-256):
clone the default branch, clear it except the allow-list, write the
generated files, commit only when the staged diff is non-empty, and
`git push` the default branch itself (no dedicated branch is checked
out).  A push with no new commit leaves the remote unchanged. -/
def update_github_repository_lb (files : List (Str × Str)) (repo : Repo) :
    PubRes × Repo :=
  let working := lbWrite files (lbClear repo.main)
  if treeEq working repo.main then
    (⟨true, S "Successfully pushed to GitHub.", false⟩, repo)
  else
    (⟨true, S "Successfully pushed to GitHub.", true⟩,
     { repo with main := working, commits := repo.commits + 1 })

/-!
Status endpoint `get_build_status` of `live_backend_real_build.py`
(lines 507-534).  The in-memory `build_statuses` map is an association
list from build id to the stored record; the handler only performs a
membership test and an item read, neither of which mutates a Python
dict, so it returns the map unchanged.
-/

/-- A record of the `build_statuses` map: the fields the endpoint reads. -/
structure BuildRecord where
  status : Str
  download_url : Option Str
deriving DecidableEq

/-- Lookup in the `build_statuses` map. -/
def recGet (m : List (Str × BuildRecord)) (k : Str) : Option BuildRecord :=
  match m with
  | [] => none
  | (k', v) :: rest => if k' = k then some v else recGet rest k

/-- An HTTP response: status code and JSON body fields. -/
structure StatusResp where
  code : Nat
  body : List (Str × Str)
deriving DecidableEq

/-- `get_build_status` (lines 507-534): 404 with an error message and
the build id when the id is unknown, otherwise the stored status (and
the download URL once a successful build has one). -/
def get_build_status (statuses : List (Str × BuildRecord)) (build_id : Str) :
    StatusResp × List (Str × BuildRecord) :=
  match recGet statuses build_id with
  | none =>
    (⟨404, [(S "error", S "Build ID not found"), (S "build_id", build_id)]⟩,
     statuses)
  | some info =>
    if info.status = S "SUCCESS" ∧ info.download_url.isSome then
      (⟨200, [(S "status", S "success"), (S "build_id", build_id),
              (S "download_url", info.download_url.getD [])]⟩, statuses)
    else
      (⟨200, [(S "status", info.status), (S "build_id", build_id)]⟩, statuses)

end IdeaForge

deriving instance DecidableEq for Except

namespace IdeaForge

/-!
Lemmas about the real-build scanner, followed by the theorems settling
the claims.
-/

/-- A line toggles the fence state exactly when its stripped form starts
with three backticks. -/
def isFence (raw : Str) : Bool := pyStarts (S "```") (pyStrip (pyRstrip raw))

/-- A non-fence line seen outside a code block changes neither the file
map nor the fence state. -/
theorem scanLine_out (st : ScanSt) (raw : Str) (hout : st.inBlock = false)
    (h : isFence raw = false) :
    (scanLine st raw).files = st.files ∧ (scanLine st raw).inBlock = false := by
  unfold isFence at h
  unfold scanLine
  simp [h, hout]
  split <;> simp [hout]

/-- A non-fence line seen inside a code block is only accumulated. -/
theorem scanLine_in (st : ScanSt) (raw : Str) (hin : st.inBlock = true)
    (h : isFence raw = false) :
    (scanLine st raw).files = st.files ∧ (scanLine st raw).inBlock = true := by
  unfold isFence at h
  unfold scanLine
  simp [h, hin]

/-- Scanning fence-free lines outside a block leaves the file map empty
as it was. -/
theorem scan_out (ls : List Str) :
    ∀ st : ScanSt, st.inBlock = false → (∀ l ∈ ls, isFence l = false) →
    (ls.foldl scanLine st).files = st.files ∧
    (ls.foldl scanLine st).inBlock = false := by
  induction ls with
  | nil => intro st h _; exact ⟨rfl, h⟩
  | cons x xs ih =>
    intro st h hall
    have hx := scanLine_out st x h (hall x (by simp))
    have := ih (scanLine st x) hx.2 (fun l hl => hall l (by simp [hl]))
    exact ⟨hx.1 ▸ this.1, this.2⟩

/-- Scanning fence-free lines inside a block never emits a file. -/
theorem scan_in (ls : List Str) :
    ∀ st : ScanSt, st.inBlock = true → (∀ l ∈ ls, isFence l = false) →
    (ls.foldl scanLine st).files = st.files := by
  induction ls with
  | nil => intro st _ _; rfl
  | cons x xs ih =>
    intro st h hall
    have hx := scanLine_in st x h (hall x (by simp))
    have := ih (scanLine st x) hx.2 (fun l hl => hall l (by simp [hl]))
    exact hx.1 ▸ this

/-- Inserting a key makes it present. -/
theorem dictHas_insert_self (d : List (Str × Str)) (k v : Str) :
    dictHas (dictInsert d k v) k = true := by
  induction d with
  | nil => simp [dictInsert, dictHas, dictGet]
  | cons e rest ih =>
    by_cases h : e.1 = k
    · simp [dictInsert, h, dictHas, dictGet]
    · simp only [dictInsert, h, if_false]
      simpa [dictHas, dictGet, h] using ih

/-- The defaulting step at the end of `live_backend.parse_generated_code`
always leaves a `pubspec.yaml` entry in the returned map. -/
theorem lb_pubspec_present (files : List (Str × Str)) :
    dictHas (if dictHas files (S "pubspec.yaml") = false then
        dictInsert files (S "pubspec.yaml") defaultPubspec
      else files) (S "pubspec.yaml") = true := by
  split
  · exact dictHas_insert_self _ _ _
  · rename_i h
    simpa using h

/-- A yaml oracle for inputs whose paths never reach the pubspec
validation. -/
def trivialYaml : Str → YamlRes := fun _ => .parsed none

/-- The exact output format demanded by the system prompt of
`live_backend_real_build.py` (lines 94-95 and 106-111): `FILENAME:`
labels followed by plain language-tagged fences. -/
def promptedOutput : Str :=
  S "FILENAME: main.dart\n```dart\nimport \x27package:flutter/material.dart\x27;\nvoid main() \x7b\x7d\n```\nFILENAME: pubspec.yaml\n```yaml\nname: counter_app\n```"

/-- C1: the claim that `parse_generated_code` recovers `main.dart` and
`pubspec.yaml` from one well-formed `FILENAME:`-labelled segment each
fails on `live_backend_real_build.py`: its scanner reads filenames only
from a `language:filename` fence suffix and discards `FILENAME:` lines,
so on the very format its own system prompt demands it reports
`main.dart` missing — while the `live_backend.py` extractor recovers
both files from the same text.  The error is raised before the content
validation, so the yaml oracle is not consulted. -/
theorem c1_filename_format_code_bug :
    parse_generated_code_rb trivialYaml promptedOutput =
      .error (S "Missing required file: main.dart") ∧
    dictGet (parse_generated_code_lb promptedOutput) (S "main.dart") =
      some (S "import \x27package:flutter/material.dart\x27;\nvoid main() \x7b\x7d") ∧
    dictGet (parse_generated_code_lb promptedOutput) (S "pubspec.yaml") =
      some (S "name: counter_app") := by
  refine ⟨by decide, by decide, by decide⟩

/-- Input with a `main.dart` segment and no manifest segment. -/
def mainOnlyOutput : Str :=
  S "FILENAME: main.dart\n```dart\nimport \x27a\x27;\nvoid main() \x7b\x7d\n```"

/-- C4 counterexample: on an input containing no manifest segment (the
text does not even contain the characters `pubspec`), the
`live_backend.py` extractor returns a file set with a `pubspec.yaml`
entry holding the built-in default text, which does not occur in the
input — refuting both the no-synthesis claim and its particular
consequence that no `pubspec.yaml` entry is returned. -/
theorem c4_default_pubspec_counterexample :
    dictGet (parse_generated_code_lb mainOnlyOutput) (S "pubspec.yaml") =
      some defaultPubspec ∧
    pyIn (S "pubspec") mainOnlyOutput = false ∧
    pyIn defaultPubspec mainOnlyOutput = false ∧
    defaultPubspec ≠ [] := by
  refine ⟨by decide, by decide, by decide, by decide⟩

/-- C4 (corrected): the real-build extractor synthesizes nothing — when
the scan recovers no `pubspec.yaml` it returns a missing-file error
(for `main.dart` when that too is absent) and no file set at all —
whereas the `live_backend.py` extractor always returns a file set
containing a `pubspec.yaml` entry, substituting the built-in default
when the input provides none. -/
theorem c4_no_synthesis_amended :
    (∀ (oracle : Str → YamlRes) (s : Str),
      dictHas ((pySplit '\n' s).foldl scanLine initScan).files (S "pubspec.yaml") = false →
      parse_generated_code_rb oracle s = .error (S "Missing required file: main.dart") ∨
      parse_generated_code_rb oracle s = .error (S "Missing required file: pubspec.yaml")) ∧
    (∀ s : Str, dictHas (parse_generated_code_lb s) (S "pubspec.yaml") = true) := by
  constructor
  · intro oracle s h
    unfold parse_generated_code_rb
    by_cases hm : dictHas ((pySplit '\n' s).foldl scanLine initScan).files (S "main.dart") = false
    · left; simp [hm]
    · right; simp [hm, h]
  · intro s
    simp only [parse_generated_code_lb]
    exact lb_pubspec_present _

/-- C4 witness: the amended statement instantiated on a concrete
fence-free input, whose scan recovers no files at all. -/
theorem c4_no_synthesis_amended_witness :
    (parse_generated_code_rb trivialYaml (S "plain commentary") =
        .error (S "Missing required file: main.dart") ∨
      parse_generated_code_rb trivialYaml (S "plain commentary") =
        .error (S "Missing required file: pubspec.yaml")) ∧
    dictHas (parse_generated_code_lb (S "plain commentary")) (S "pubspec.yaml") = true :=
  ⟨c4_no_synthesis_amended.1 trivialYaml (S "plain commentary") (by decide),
   c4_no_synthesis_amended.2 (S "plain commentary")⟩

/-- C6 counterexample: on the input `"```dart:main.dart\nvoid main() \x7b\x7d"`,
whose fence is opened with an explicit filename and never closed, the
real-build extractor emits nothing for `main.dart` — it fails with the
missing-file error instead of treating end-of-text as a fence close —
and on the analogous `FILENAME:`-labelled unterminated input the
`live_backend.py` extractor emits `main.dart` with empty content, not
the accumulated text. -/
theorem c6_unterminated_counterexample :
    parse_generated_code_rb trivialYaml (S "```dart:main.dart\nvoid main() \x7b\x7d") =
      .error (S "Missing required file: main.dart") ∧
    dictGet (parse_generated_code_lb (S "FILENAME: main.dart\n```dart\nvoid main() \x7b\x7d"))
        (S "main.dart") = some [] := by
  refine ⟨by decide, by decide⟩

/-- C6 (corrected): content inside an unterminated fence is not emitted.
In `live_backend_real_build.py` the scan loop only stores a file when a
closing fence line arrives, and the state is never flushed at
end-of-text: for any input whose first line opens a fence naming
`main.dart` and whose remaining lines contain no fence marker, the
accumulated content is discarded and extraction fails with the
missing-file error. -/
theorem c6_unterminated_amended (oracle : Str → YamlRes) (s : Str) (body : List Str)
    (hsplit : pySplit '\n' s = S "```dart:main.dart" :: body)
    (hbody : ∀ l ∈ body, isFence l = false) :
    parse_generated_code_rb oracle s = .error (S "Missing required file: main.dart") := by
  have h1 : scanLine initScan (S "```dart:main.dart") =
      ⟨[], [], [], true, some (S "main.dart"), some (S "dart")⟩ := by decide
  have hfiles : ((pySplit '\n' s).foldl scanLine initScan).files = [] := by
    rw [hsplit]
    simp only [List.foldl_cons, h1]
    exact scan_in body _ rfl hbody
  unfold parse_generated_code_rb
  simp [hfiles, dictHas, dictGet]

/-- C6 witness: the amended statement instantiated on a concrete
unterminated input. -/
theorem c6_unterminated_amended_witness :
    parse_generated_code_rb trivialYaml
        (S "```dart:main.dart\nimport \x27a\x27;\nclass A \x7b\x7d") =
      .error (S "Missing required file: main.dart") :=
  c6_unterminated_amended trivialYaml _
    [S "import \x27a\x27;", S "class A \x7b\x7d"] (by decide) (by decide)

/-- C7 counterexample: on an input with zero fenced segments the
real-build extractor fails with the single-file message
`Missing required file: main.dart`, which does not mention
`pubspec.yaml` — the reported missing set does not contain both
canonical keys. -/
theorem c7_missing_list_counterexample :
    parse_generated_code_rb trivialYaml (S "Just some commentary\nno code here") =
      .error (S "Missing required file: main.dart") ∧
    pyIn (S "pubspec.yaml") (S "Missing required file: main.dart") = false := by
  refine ⟨by decide, by decide⟩

/-- C7 (corrected): on any input with zero fenced segments the
real-build extractor fails, but it reports only the first missing
canonical key — the fixed message `Missing required file: main.dart`,
which does not mention the manifest file. -/
theorem c7_missing_report_amended (oracle : Str → YamlRes) (s : Str)
    (h : ∀ l ∈ pySplit '\n' s, isFence l = false) :
    parse_generated_code_rb oracle s = .error (S "Missing required file: main.dart") ∧
    pyIn (S "pubspec.yaml") (S "Missing required file: main.dart") = false := by
  have hfiles : ((pySplit '\n' s).foldl scanLine initScan).files = [] := by
    simpa [initScan] using (scan_out (pySplit '\n' s) initScan rfl h).1
  constructor
  · simp only [parse_generated_code_rb]
    rw [hfiles]
    simp [dictHas, dictGet]
  · decide

/-- C7 witness: the amended statement instantiated on a concrete
fence-free input. -/
theorem c7_missing_report_amended_witness :
    parse_generated_code_rb trivialYaml (S "ERROR: Unable to generate main.dart code.") =
      .error (S "Missing required file: main.dart") ∧
    pyIn (S "pubspec.yaml") (S "Missing required file: main.dart") = false :=
  c7_missing_report_amended trivialYaml _ (by decide)

/-- Splitting never produces an empty part list. -/
theorem pySplit_ne_nil (c : Char) (s : Str) : pySplit c s ≠ [] := by
  cases s with
  | nil => simp [pySplit]
  | cons x xs =>
    simp only [pySplit]
    split
    · split <;> simp
    · split <;> simp

/-- Joining the parts of a split restores the original text. -/
theorem joinC_pySplit (c : Char) (s : Str) : joinC c (pySplit c s) = s := by
  induction s with
  | nil => rfl
  | cons x xs ih =>
    simp only [pySplit]
    rcases hs : pySplit c xs with _ | ⟨l, ls⟩
    · exact absurd hs (pySplit_ne_nil c xs)
    · rw [hs] at ih
      by_cases hx : x = c
      · subst hx
        simpa [joinC] using ih
      · simp only [hx, if_false]
        cases ls with
        | nil => simpa [joinC] using congrArg (x :: ·) ih
        | cons m ms => simpa [joinC] using congrArg (x :: ·) ih

/-- The `fixed_lines` accumulated by `validate_and_fix_dart_null_safety`
are exactly the rstripped input lines: the inner `continue` of the
source skips only to the next type marker, so every line is appended. -/
theorem vafLoop_fst (ls : List Str) : ∀ i : Nat, (vafLoop i ls).1 = ls.map pyRstrip := by
  induction ls with
  | nil => intro i; rfl
  | cons x xs ih =>
    intro i
    simp only [vafLoop]
    split <;> simp [ih (i + 1)]

/-- Mapping `pyRstrip` over lines it does not change is the identity. -/
theorem rstrip_map_self (l : List Str) (h : ∀ x ∈ l, pyRstrip x = x) :
    l.map pyRstrip = l := by
  induction l with
  | nil => rfl
  | cons x xs ih =>
    simp only [List.map_cons]
    rw [h x (by simp), ih (fun a ha => h a (by simp [ha]))]

/-- C5 counterexample: a two-line `main.dart` whose second line carries
trailing spaces passes `validate_and_fix_dart_null_safety`, yet the
content returned on success — which `generate_app_real_build` stores
back into the file set — differs from the validated content: the
trailing whitespace of every line has been stripped. -/
theorem c5_mutation_counterexample :
    validate_and_fix_dart_null_safety (S "import \x27dart:core\x27;\nvoid main() \x7b\x7d  ") =
      (true, S "import \x27dart:core\x27;\nvoid main() \x7b\x7d", []) ∧
    S "import \x27dart:core\x27;\nvoid main() \x7b\x7d" ≠
      S "import \x27dart:core\x27;\nvoid main() \x7b\x7d  " := by
  refine ⟨by decide, by decide⟩

/-- C5 (corrected): on success `validate_and_fix_dart_null_safety`
returns the validated content with each line's trailing whitespace
removed — so the gate is pure only up to per-line rstripping, and the
returned content is byte-identical exactly when no input line carries
trailing whitespace (as is the case for content produced by the
real-build extractor, which rstrips every fenced line). -/
theorem c5_validator_amended (content : Str)
    (h : (validate_and_fix_dart_null_safety content).1 = true) :
    (validate_and_fix_dart_null_safety content).2.1 =
      joinC '\n' ((pySplit '\n' content).map pyRstrip) ∧
    ((∀ l ∈ pySplit '\n' content, pyRstrip l = l) →
      (validate_and_fix_dart_null_safety content).2.1 = content) := by
  have hout : (validate_and_fix_dart_null_safety content).2.1 =
      joinC '\n' ((pySplit '\n' content).map pyRstrip) := by
    by_cases hr : (vafLoop 0 (pySplit '\n' content)).2 = []
    · simp [validate_and_fix_dart_null_safety, hr, vafLoop_fst]
    · exact absurd h (by simp [validate_and_fix_dart_null_safety, hr])
  refine ⟨hout, fun hl => ?_⟩
  rw [hout, rstrip_map_self _ hl, joinC_pySplit]

/-- C5 witness: the amended statement instantiated on content with no
trailing whitespace, where the returned content is byte-identical. -/
theorem c5_validator_amended_witness :
    (validate_and_fix_dart_null_safety (S "import \x27dart:core\x27;\nvoid main() \x7b\x7d")).1 = true ∧
    (validate_and_fix_dart_null_safety (S "import \x27dart:core\x27;\nvoid main() \x7b\x7d")).2.1 =
      S "import \x27dart:core\x27;\nvoid main() \x7b\x7d" :=
  ⟨by decide,
   (c5_validator_amended (S "import \x27dart:core\x27;\nvoid main() \x7b\x7d") (by decide)).2
     (by decide)⟩

/-- If every sample up to the budget is in progress, the loop runs the
full budget and ends holding the last sample. -/
theorem pollAux_exhaust (sample : Nat → Sample) :
    ∀ (fuel : Nat), ∀ (i : Nat) (cur : Sample), 0 < fuel →
    (∀ j, i ≤ j → j < i + fuel → inProgress (sample j).status = true) →
    pollAux sample cur i fuel = (sample (i + fuel - 1), i + fuel) := by
  intro fuel
  induction fuel with
  | zero => intro i cur h; omega
  | succ f ih =>
    intro i cur _ hall
    have hi : inProgress (sample i).status = true := hall i (le_refl i) (by omega)
    simp only [pollAux, hi, if_true]
    cases Nat.eq_zero_or_pos f with
    | inl h0 =>
      subst h0
      simp [pollAux]
    | inr hf =>
      have := ih (i + 1) (sample i) hf (fun j h1 h2 => hall j (by omega) (by omega))
      rw [this]
      rw [show i + 1 + f - 1 = i + (f + 1) - 1 from by omega,
          show i + 1 + f = i + (f + 1) from by omega]

/-- If the first `k` samples are in progress and sample `k` is not, the
loop breaks there having taken `k + 1` samples. -/
theorem pollAux_break (sample : Nat → Sample) :
    ∀ (k : Nat), ∀ (fuel i : Nat) (cur : Sample), k < fuel →
    (∀ j, i ≤ j → j < i + k → inProgress (sample j).status = true) →
    inProgress (sample (i + k)).status = false →
    pollAux sample cur i fuel = (sample (i + k), i + k + 1) := by
  intro k
  induction k with
  | zero =>
    intro fuel i cur hk hall hstop
    cases fuel with
    | zero => omega
    | succ f =>
      simp only [Nat.add_zero] at hstop
      simp [pollAux, hstop]
  | succ k ih =>
    intro fuel i cur hk hall hstop
    cases fuel with
    | zero => omega
    | succ f =>
      have hi : inProgress (sample i).status = true := hall i (le_refl i) (by omega)
      simp only [pollAux, hi, if_true]
      have := ih f (i + 1) (sample i) (by omega)
        (fun j h1 h2 => hall j (by omega) (by omega))
        (by have : i + 1 + k = i + (k + 1) := by omega
            rw [this]; exact hstop)
      rw [this]
      rw [show i + 1 + k = i + (k + 1) from by omega]

/-- An in-progress status string is not `"SUCCESS"`. -/
theorem inProgress_ne_success (s : Str) (h : inProgress s = true) :
    ¬ s = S "SUCCESS" := by
  unfold inProgress at h
  simp only [Bool.or_eq_true, beq_iff_eq] at h
  rcases h with (h | h) | h <;> subst h <;> decide

/-- The sample sequence of the C2 counterexample: every status is
`WORKING` and only the very first sample carries a log URL. -/
def allWorking : Nat → Sample :=
  fun i => ⟨S "WORKING", if i == 0 then some (S "gs://logs/first") else none, none⟩

/-- C2 counterexample: with the driver's budget of 20 samples and a
build that stays `WORKING` throughout, the loop takes all 20 samples
but the reported status is `WORKING`, not the synthetic `TIMEOUT` the
claim demands, and the log URL available from the first sample is lost
because only the final sample's (absent) log URL is returned. -/
theorem c2_timeout_counterexample :
    drivePoll allWorking MAX_POLLS = (⟨S "WORKING", none, none⟩, 20) ∧
    (drivePoll allWorking MAX_POLLS).1.status ≠ S "TIMEOUT" ∧
    (allWorking 0).log = some (S "gs://logs/first") ∧
    (drivePoll allWorking MAX_POLLS).1.log = none ∧
    finishResponse (drivePoll allWorking MAX_POLLS).1 =
      ⟨500, S "Build failed or timed out. Status: WORKING", none⟩ := by
  refine ⟨by decide, by decide, by decide, by decide, by decide⟩

/-- C2 (corrected): when every sample within the budget stays in
`{PENDING, QUEUED, WORKING}`, the driver stops after exactly the budget
number of samples with the final sample in hand, and the request ends in
the 500 error branch whose message reports that final in-progress status
(`Build failed or timed out. Status: ...`) and whose log URL is the
final sample's only; no `TIMEOUT` status is synthesized anywhere. -/
theorem c2_poll_exhaustion_amended (sample : Nat → Sample) (n : Nat) (hn : 0 < n)
    (hall : ∀ j, j < n → inProgress (sample j).status = true) :
    drivePoll sample n = (sample (n - 1), n) ∧
    finishResponse (sample (n - 1)) =
      ⟨500, S "Build failed or timed out. Status: " ++ (sample (n - 1)).status,
       (sample (n - 1)).log⟩ := by
  constructor
  · have := pollAux_exhaust sample n 0 ⟨S "WORKING", none, none⟩ hn
      (fun j _ h2 => hall j (by omega))
    simpa [drivePoll] using this
  · have hne := inProgress_ne_success _ (hall (n - 1) (by omega))
    unfold finishResponse
    rw [if_neg]
    intro hc
    exact hne hc.1

/-- C2 witness: the amended statement instantiated with the constant
`WORKING` sampler and the driver's budget of 20. -/
theorem c2_poll_exhaustion_amended_witness :
    drivePoll allWorking MAX_POLLS = (allWorking (MAX_POLLS - 1), MAX_POLLS) ∧
    finishResponse (allWorking (MAX_POLLS - 1)) =
      ⟨500, S "Build failed or timed out. Status: " ++ (allWorking (MAX_POLLS - 1)).status,
       (allWorking (MAX_POLLS - 1)).log⟩ :=
  c2_poll_exhaustion_amended allWorking MAX_POLLS (by decide) (by decide)

/-- C9 (confirmed): the polling driver stops at the first sample whose
status lies outside `{PENDING, QUEUED, WORKING}` and performs no
further samples — with `k` in-progress samples followed by a terminal
one inside the budget, it returns that terminal sample having taken
exactly `k + 1` samples. -/
theorem c9_early_stop_confirmed (sample : Nat → Sample) (maxPolls k : Nat)
    (h1 : k < maxPolls)
    (h2 : ∀ j, j < k → inProgress (sample j).status = true)
    (h3 : inProgress (sample k).status = false) :
    drivePoll sample maxPolls = (sample k, k + 1) := by
  have := pollAux_break sample k maxPolls 0 ⟨S "WORKING", none, none⟩ h1
    (fun j _ hj => h2 j (by omega)) (by simpa using h3)
  simpa [drivePoll] using this

/-- The sample sequence of the spec's scenario: `PENDING`, `WORKING`,
then `SUCCESS` with an artifact. -/
def cycleSample : Nat → Sample :=
  fun i =>
    if i = 0 then ⟨S "PENDING", none, none⟩
    else if i = 1 then ⟨S "WORKING", some (S "gs://logs/2"), none⟩
    else ⟨S "SUCCESS", some (S "gs://logs/3"), some (S "https://apk")⟩

/-- C9 witness: under a 5-sample budget with the first two samples in
progress and the third `SUCCESS`, the driver returns `SUCCESS` after
exactly 3 samples, not the full 5. -/
theorem c9_early_stop_confirmed_witness :
    drivePoll cycleSample 5 =
      (⟨S "SUCCESS", some (S "gs://logs/3"), some (S "https://apk")⟩, 3) :=
  (c9_early_stop_confirmed cycleSample 5 2 (by decide) (by decide) (by decide)).trans
    (by decide)

end IdeaForge

namespace IdeaForge

/-- Lexicographic strict order is irreflexive. -/
theorem strLt_irrefl (s : Str) : strLt s s = false := by
  induction s with
  | nil => rfl
  | cons c t ih => simp [strLt, ih]

/-- Lexicographic order is reflexive. -/
theorem strLe_refl (s : Str) : strLe s s = true := by
  simp [strLe, strLt_irrefl]

/-- Lexicographic strict order is asymmetric. -/
theorem strLt_asymm (x : Str) : ∀ y : Str, strLt x y = true → strLt y x = false := by
  induction x with
  | nil =>
    intro y h
    cases y with
    | nil => simpa [strLt] using h
    | cons b bs => rfl
  | cons a as_ ih =>
    intro y h
    cases y with
    | nil => simpa [strLt] using h
    | cons b bs =>
      simp only [strLt] at h ⊢
      by_cases hab : a.toNat < b.toNat
      · simp only [hab, if_true] at h
        have : ¬ b.toNat < a.toNat := by omega
        simp [this, hab]
      · simp only [hab, if_false] at h
        by_cases hba : b.toNat < a.toNat
        · simp [hba] at h
        · simp only [hba, if_false] at h ⊢
          simp [hab, ih bs h]

/-- Totality of the lexicographic order: if `x ≤ y` fails then `y ≤ x`. -/
theorem strLe_total (x y : Str) : strLe x y = true ∨ strLe y x = true := by
  by_cases h : strLt y x = true
  · right
    simp [strLe, strLt_asymm y x h]
  · left
    simp [strLe, Bool.not_eq_true] at h ⊢
    exact h

/-- Transitivity of the lexicographic order, proved as: if `y < x`
fails and `z < y` fails then `z < x` fails. -/
theorem strLt_neg_trans (x : Str) :
    ∀ y z : Str, strLt y x = false → strLt z y = false → strLt z x = false := by
  induction x with
  | nil =>
    intro y z _ _
    cases z with
    | nil => rfl
    | cons c cs => rfl
  | cons a as_ ih =>
    intro y z h1 h2
    cases z with
    | nil =>
      cases y with
      | nil => simp [strLt] at h1
      | cons b bs => simp [strLt] at h2
    | cons c cs =>
      cases y with
      | nil => simp [strLt] at h1
      | cons b bs =>
        simp only [strLt] at h1 h2 ⊢
        by_cases hba : b.toNat < a.toNat
        · simp [hba] at h1
        · simp only [hba, if_true, if_false] at h1
          by_cases hcb : c.toNat < b.toNat
          · simp [hcb] at h2
          · simp only [hcb, if_true, if_false] at h2
            by_cases hca : c.toNat < a.toNat
            · omega
            · simp only [hca, if_false]
              by_cases hac : a.toNat < c.toNat
              · simp [hac]
              · simp only [hac, if_false]
                have hab : ¬ a.toNat < b.toNat := by omega
                have hbc : ¬ b.toNat < c.toNat := by omega
                simp only [hab, if_false] at h1
                simp only [hbc, if_false] at h2
                exact ih bs cs h1 h2

/-- Transitivity of `strLe`. -/
theorem strLe_trans (x y z : Str) (h1 : strLe x y = true) (h2 : strLe y z = true) :
    strLe x z = true := by
  simp only [strLe, Bool.not_eq_true'] at h1 h2 ⊢
  exact strLt_neg_trans x y z h1 h2

instance : IsTotal (Str × Str) nameGe :=
  ⟨fun a b => by
    unfold nameGe
    rcases strLe_total b.1 a.1 with h | h
    · exact Or.inl h
    · exact Or.inr h⟩

instance : IsTrans (Str × Str) nameGe :=
  ⟨fun a b c h1 h2 => strLe_trans c.1 b.1 a.1 h2 h1⟩

/-- The first blob name returned by `list_latest_apks` is
lexicographically greatest among all returned entries. -/
theorem list_latest_apks_head_max (su : Str → Str) (bucket : List Blob)
    (h0 : Str × Str) (t : List (Str × Str))
    (hh : list_latest_apks su bucket = h0 :: t) :
    ∀ p ∈ list_latest_apks su bucket, strLe p.1 h0.1 = true := by
  intro p hp
  have hsorted : List.Sorted nameGe (list_latest_apks su bucket) :=
    List.sorted_insertionSort nameGe _
  rw [hh] at hsorted hp
  rcases List.mem_cons.mp hp with rfl | hmem
  · exact strLe_refl p.1
  · exact (List.sorted_cons.mp hsorted).1 p hmem

/-- A fold step that sees no `.apk` blob leaves the accumulator alone. -/
theorem lbFold_no_apk (l : List Blob) :
    ∀ acc : Option Blob, (∀ b ∈ l, pyEnds (S ".apk") b.name = false) →
    l.foldl lbApkStep acc = acc := by
  induction l with
  | nil => intro acc _; rfl
  | cons x xs ih =>
    intro acc hall
    have hx : pyEnds (S ".apk") x.name = false := hall x (by simp)
    simp only [List.foldl_cons, lbApkStep, hx]
    exact ih acc (fun b hb => hall b (by simp [hb]))

/-- The latest-blob fold returns a seen `.apk` blob (or the initial
accumulator) whose update time dominates every `.apk` blob seen and the
initial accumulator. -/
theorem lbFold_max (l : List Blob) :
    ∀ (acc : Option Blob) (b : Blob), l.foldl lbApkStep acc = some b →
    ((b ∈ l ∧ pyEnds (S ".apk") b.name = true) ∨ acc = some b) ∧
    (∀ c ∈ l, pyEnds (S ".apk") c.name = true → c.updated ≤ b.updated) ∧
    (∀ a : Blob, acc = some a → a.updated ≤ b.updated) := by
  induction l with
  | nil =>
    intro acc b h
    simp only [List.foldl_nil] at h
    refine ⟨Or.inr h, by simp, fun a ha => ?_⟩
    rw [h] at ha
    cases ha
    exact le_refl _
  | cons x xs ih =>
    intro acc b h
    simp only [List.foldl_cons] at h
    obtain ⟨hmem, hmax, hacc⟩ := ih (lbApkStep acc x) b h
    have hstep : ∀ a : Blob, lbApkStep acc x = some a →
        (a = x ∧ pyEnds (S ".apk") x.name = true) ∨ acc = some a := by
      intro a ha
      unfold lbApkStep at ha
      by_cases hx : pyEnds (S ".apk") x.name = true
      · simp only [hx, if_true] at ha
        cases hc : acc with
        | none => rw [hc] at ha; cases ha; exact Or.inl ⟨rfl, hx⟩
        | some l0 =>
          rw [hc] at ha
          by_cases hu : l0.updated < x.updated
          · simp only [hu, if_true] at ha; cases ha; exact Or.inl ⟨rfl, hx⟩
          · simp only [hu, if_false] at ha; exact Or.inr ha
      · simp only [Bool.not_eq_true] at hx
        simp only [hx, Bool.false_eq_true, if_false] at ha
        exact Or.inr (ha ▸ rfl)
    have hxle : pyEnds (S ".apk") x.name = true → x.updated ≤ b.updated := by
      intro hx
      unfold lbApkStep at hacc
      cases hc : acc with
      | none =>
        apply hacc x
        simp [hx, hc]
      | some l0 =>
        by_cases hu : l0.updated < x.updated
        · have := hacc x (by simp [hx, hc, hu])
          exact this
        · have := hacc l0 (by simp [hx, hc, hu])
          omega
    refine ⟨?_, ?_, ?_⟩
    · rcases hmem with ⟨hb, he⟩ | hstepb
      · exact Or.inl ⟨by simp [hb], he⟩
      · rcases hstep b hstepb with ⟨rfl, he⟩ | hao
        · exact Or.inl ⟨by simp, he⟩
        · exact Or.inr hao
    · intro c hc he
      rcases List.mem_cons.mp hc with rfl | hcx
      · exact hxle he
      · exact hmax c hcx he
    · intro a ha
      unfold lbApkStep at hacc
      by_cases hx : pyEnds (S ".apk") x.name = true
      · cases hc : acc with
        | none => rw [hc] at ha; cases ha
        | some l0 =>
          rw [hc] at ha
          cases ha
          by_cases hu : a.updated < x.updated
          · have := hacc x (by simp [hx, hc, hu])
            omega
          · have := hacc a (by simp [hx, hc, hu])
            exact this
      · simp only [Bool.not_eq_true] at hx
        apply hacc
        simp [hx, ha]

end IdeaForge

namespace IdeaForge

/-- A two-blob bucket: the lexicographically last name is the older
artifact. -/
def demoBucket : List Blob :=
  [⟨S "ideaforge-builds/aaa_app-release.apk", 100⟩,
   ⟨S "ideaforge-builds/zzz_app-release.apk", 50⟩]

/-- A signing function for concrete evaluations. -/
def demoSign : Str → Str := fun n => S "https://signed/" ++ n

/-- C3 counterexample: with two `.apk` candidates under the prefix where
the lexicographically greatest name (`zzz...`) belongs to the older
object (updated at 50) and the most recently updated object (100) is
`aaa...`, the real-build fallback returns the signed URL of the older
`zzz` artifact — it selects by descending blob name, not by update
time — whereas the `live_backend.py` fallback returns the `aaa` one. -/
theorem c3_latest_apk_counterexample :
    rbApkFallback demoSign demoBucket =
      some (S "https://signed/ideaforge-builds/zzz_app-release.apk") ∧
    lbApkFallback demoSign demoBucket =
      some (S "https://signed/ideaforge-builds/aaa_app-release.apk") ∧
    (∀ c ∈ demoBucket, c.updated ≤ 100) ∧
    (⟨S "ideaforge-builds/aaa_app-release.apk", 100⟩ : Blob) ∈ demoBucket ∧
    S "https://signed/ideaforge-builds/zzz_app-release.apk" ≠
      S "https://signed/ideaforge-builds/aaa_app-release.apk" := by
  refine ⟨by decide, by decide, by decide, by decide, by decide⟩

/-- C3 (corrected): when the build metadata names no artifact, both
resolvers list the bucket under `ideaforge-builds/` and keep `.apk`
objects, but `live_backend_real_build.py` selects the candidate with
the lexicographically greatest blob name (the head of the
name-descending sort), while only `live_backend.py` selects the most
recently updated candidate; when no candidate exists, both yield no
URL. -/
theorem c3_artifact_fallback_amended :
    (∀ (su : Str → Str) (bucket : List Blob),
      (bucket.filter (fun b => pyStarts apkDir b.name)).filter
          (fun b => pyEnds (S ".apk") b.name) = [] →
      rbApkFallback su bucket = none ∧ lbApkFallback su bucket = none) ∧
    (∀ (su : Str → Str) (bucket : List Blob) (h0 : Str × Str) (t : List (Str × Str)),
      list_latest_apks su bucket = h0 :: t →
      rbApkFallback su bucket = some h0.2 ∧
      ∀ p ∈ list_latest_apks su bucket, strLe p.1 h0.1 = true) ∧
    (∀ (su : Str → Str) (bucket : List Blob) (u : Str),
      lbApkFallback su bucket = some u →
      ∃ b : Blob, b ∈ bucket ∧ pyStarts apkDir b.name = true ∧
        pyEnds (S ".apk") b.name = true ∧ u = su b.name ∧
        ∀ c ∈ bucket, pyStarts apkDir c.name = true →
          pyEnds (S ".apk") c.name = true → c.updated ≤ b.updated) := by
  refine ⟨?_, ?_, ?_⟩
  · intro su bucket hnil
    constructor
    · simp only [rbApkFallback, list_latest_apks]
      rw [hnil]
      rfl
    · simp only [lbApkFallback]
      have hall : ∀ b ∈ bucket.filter (fun b => pyStarts apkDir b.name),
          pyEnds (S ".apk") b.name = false := by
        intro b hb
        have := List.filter_eq_nil_iff.mp hnil b
        simpa using this hb
      rw [lbFold_no_apk _ none hall]
      rfl
  · intro su bucket h0 t hh
    refine ⟨?_, list_latest_apks_head_max su bucket h0 t hh⟩
    simp only [rbApkFallback]
    rw [hh]
  · intro su bucket u hu
    simp only [lbApkFallback] at hu
    rcases hfold : (bucket.filter (fun b => pyStarts apkDir b.name)).foldl lbApkStep none with _ | b
    · rw [hfold] at hu
      cases hu
    · rw [hfold] at hu
      obtain ⟨hmem, hmax, _⟩ := lbFold_max _ none b hfold
      rcases hmem with ⟨hb, he⟩ | habs
      · have hb' := List.mem_filter.mp hb
        refine ⟨b, hb'.1, by simpa using hb'.2, he, by simpa using hu.symm, ?_⟩
        intro c hc hpre hapk
        exact hmax c (List.mem_filter.mpr ⟨hc, by simpa using hpre⟩) hapk
      · cases habs

/-- C3 witness: the amended statement instantiated on an empty bucket
and on the two-blob bucket. -/
theorem c3_artifact_fallback_amended_witness :
    (rbApkFallback demoSign [] = none ∧ lbApkFallback demoSign [] = none) ∧
    (rbApkFallback demoSign demoBucket =
        some (S "https://signed/ideaforge-builds/zzz_app-release.apk") ∧
      ∀ p ∈ list_latest_apks demoSign demoBucket,
        strLe p.1 (S "ideaforge-builds/zzz_app-release.apk") = true) ∧
    (∃ b : Blob, b ∈ demoBucket ∧ pyStarts apkDir b.name = true ∧
      pyEnds (S ".apk") b.name = true ∧
      S "https://signed/ideaforge-builds/aaa_app-release.apk" = demoSign b.name ∧
      ∀ c ∈ demoBucket, pyStarts apkDir c.name = true →
        pyEnds (S ".apk") c.name = true → c.updated ≤ b.updated) := by
  refine ⟨c3_artifact_fallback_amended.1 demoSign [] (by decide), ?_, ?_⟩
  · have h := c3_artifact_fallback_amended.2.1 demoSign demoBucket
      (S "ideaforge-builds/zzz_app-release.apk",
       S "https://signed/ideaforge-builds/zzz_app-release.apk")
      [(S "ideaforge-builds/aaa_app-release.apk",
        S "https://signed/ideaforge-builds/aaa_app-release.apk")] (by decide)
    exact h
  · exact c3_artifact_fallback_amended.2.2 demoSign demoBucket _ (by decide)

end IdeaForge

namespace IdeaForge

/-- A demo repository: the default branch holds the build descriptor
and a readme, no generated files yet. -/
def demoRepo : Repo :=
  ⟨[(S "cloudbuild.yaml", S "steps: build"), (S "README.md", S "hello")], none, 0⟩

/-- A demo generated file set. -/
def demoFiles : List (Str × Str) :=
  [(S "main.dart", S "import \x27a\x27;\nvoid main() \x7b\x7d"),
   (S "pubspec.yaml", S "name: app")]

/-- C8 counterexample: calling the real-build publisher twice in a row
with byte-identical files does not produce a "no changes" success on
the second call — the staged diff is computed against the freshly
cloned default branch, which the force-push to `generated-app` never
touched, so the second call commits again (two commits in total) and
reports the same full-success message. -/
theorem c8_second_commit_counterexample :
    (update_github_repository_rb demoFiles
        (update_github_repository_rb demoFiles demoRepo).2).1 =
      ⟨true, S "Successfully updated files in GitHub repository.", true⟩ ∧
    (update_github_repository_rb demoFiles
        (update_github_repository_rb demoFiles demoRepo).2).2.commits = 2 ∧
    S "Successfully updated files in GitHub repository." ≠
      S "No changes to commit." := by
  refine ⟨by decide, by decide, by decide⟩

/-- C8 (corrected): the real-build publisher never changes the default
branch it diffs against, so a repeated byte-identical publish behaves
exactly like the first call — committing again whenever the first call
committed; its "no changes" short-circuit fires only when the written
files already coincide with the default branch.  In `live_backend.py`,
which pushes the branch it diffs against, a second byte-identical
publish does create no second commit and succeeds, but with the message
`Successfully pushed to GitHub.`, not a "no changes" result. -/
theorem c8_publish_amended :
    (∀ (files : List (Str × Str)) (repo : Repo),
      ((update_github_repository_rb files repo).2).main = repo.main ∧
      (update_github_repository_rb files
        ((update_github_repository_rb files repo).2)).1 =
        (update_github_repository_rb files repo).1) ∧
    ((update_github_repository_lb demoFiles
        (update_github_repository_lb demoFiles demoRepo).2).1 =
      ⟨true, S "Successfully pushed to GitHub.", false⟩ ∧
     (update_github_repository_lb demoFiles
        (update_github_repository_lb demoFiles demoRepo).2).2.commits = 1) := by
  refine ⟨fun files repo => ?_, by decide, by decide⟩
  by_cases h : treeEq (rbWrite files repo.main) repo.main = true
  · simp [update_github_repository_rb, h]
  · simp only [Bool.not_eq_true] at h
    simp [update_github_repository_rb, h]

/-- C10 (confirmed): for any build id absent from the in-memory
`build_statuses` map, the status endpoint returns a 404 response whose
body carries the error message and that build id, and the map itself is
returned unchanged — the handler only reads the dict, so lookups never
create entries. -/
theorem c10_unknown_build_404_confirmed (statuses : List (Str × BuildRecord))
    (build_id : Str) (h : recGet statuses build_id = none) :
    get_build_status statuses build_id =
      (⟨404, [(S "error", S "Build ID not found"), (S "build_id", build_id)]⟩,
       statuses) := by
  unfold get_build_status
  rw [h]

/-- C10 witness: the endpoint queried for an unknown id against a
populated map. -/
theorem c10_unknown_build_404_confirmed_witness :
    get_build_status [(S "build-1", ⟨S "WORKING", none⟩)] (S "build-2") =
      (⟨404, [(S "error", S "Build ID not found"), (S "build_id", S "build-2")]⟩,
       [(S "build-1", ⟨S "WORKING", none⟩)]) :=
  c10_unknown_build_404_confirmed [(S "build-1", ⟨S "WORKING", none⟩)]
    (S "build-2") (by decide)

end IdeaForge

namespace IdeaForge

/-- C8 witness: the universally quantified part of the amended statement
instantiated on the demo repository and file set. -/
theorem c8_publish_amended_witness :
    ((update_github_repository_rb demoFiles demoRepo).2).main = demoRepo.main ∧
    (update_github_repository_rb demoFiles
        ((update_github_repository_rb demoFiles demoRepo).2)).1 =
      (update_github_repository_rb demoFiles demoRepo).1 :=
  c8_publish_amended.1 demoFiles demoRepo

end IdeaForge
